/-
Verification of the stock_market_agent repository's scoring and analysis
pipeline.  Each definition below is a shallow embedding of a function from
the Python source:

  * agents/fundamental_analysis_agent/fundamental_analysis.py
      (FundamentalAnalysis.calculate_cagr, get_means, null_check,
       the ROA/ROE averaging block of compute_yfinance_metrics)
  * agents/technical_analysis_agent/technical_analysis.py
      (analyze_rsi's signal chain, the five indicator sub-scores,
       complete_technical_analysis's aggregate, calculate_position_size)
  * agents/combined_agent/combined_analysis.py
      (CombinedAnalysis._calculate_fundamental_score and the
       recommendation chain of analyze_stock_comprehensive)
  * agents/combined_agent/combined.py
      (analyze_stock, analyze_multiple_stocks)

Python floats are modelled as rationals (reals where a fractional power is
required); pandas zero-filled default series are modelled as explicit
`Option (List _)` lookups with `List.replicate _ 0` defaults; a Python
exception is modelled as `Except.error` / `Option.none`.
-/
import Mathlib

/-! ## Fundamentals engine: calculate_cagr (fundamental_analysis.py 27-42)

`np.nan` is modelled as `Option.none`; the fractional power `(end/start)
** (1/periods)` is real exponentiation. -/

/-- `calculate_cagr(start_value, end_value, periods)`: returns NaN (`none`)
when `start_value <= 0 or end_value <= 0 or periods <= 0`, otherwise
`((end_value / start_value) ** (1 / periods) - 1) * 100`. -/
noncomputable def calculate_cagr (start_value end_value periods : ℝ) : Option ℝ :=
  if start_value ≤ 0 ∨ end_value ≤ 0 ∨ periods ≤ 0 then
    none
  else
    some (((end_value / start_value) ^ ((1 : ℝ) / periods) - 1) * 100)

/-! ## Fundamentals engine: null_check and get_means
(fundamental_analysis.py 44-76)

A list entry that is `None`/`NaN` is modelled as `Option.none`; `null_check`
keeps exactly the `some` entries (the Python guard `c != np.nan` is always
true — NaN compares unequal to itself — so the effective filter is
`c is not None and pd.notnull(c)`).  `np.mean` of an empty list is NaN,
which itself fails `null_check`, so the empty case also lands on `-1`. -/

/-- Valid entries of the input list after the `null_check` filter
(fundamental_analysis.py line 55). -/
def validEntries (num_list : List (Option ℚ)) : List ℚ :=
  num_list.filterMap id

/-- `np.mean` of a list: `NaN` (modelled `none`) on the empty list, else
the arithmetic mean. -/
def npMean (l : List ℚ) : Option ℚ :=
  if l.isEmpty then none else some (l.sum / l.length)

/-- `get_means(num_list, min_n=2)`: filters nulls/NaNs, then returns the
arithmetic mean if the mean passes `null_check` (it is NaN exactly when no
valid entry remains) and at least `min_n` entries remain, else the
sentinel `-1`. -/
def get_means (num_list : List (Option ℚ)) (min_n : ℕ := 2) : ℚ :=
  let valid := validEntries num_list
  match npMean valid with
  | some m => if min_n ≤ valid.length then m else -1
  | none => -1

/-! ## Technical engine: analyze_rsi signal chain
(technical_analysis.py 288-297) -/

/-- The discrete signal chosen by `analyze_rsi` from the latest RSI value
(the if/elif chain at technical_analysis.py 288-297). -/
def rsiSignal (rsi : ℚ) : String :=
  if 45 ≤ rsi ∧ rsi ≤ 60 then "STRONG BUY - Ideal zone"
  else if 40 ≤ rsi ∧ rsi ≤ 70 then "BUY - Acceptable zone"
  else if rsi > 70 then "WAIT - Overbought, pullback likely"
  else if rsi < 40 then "CAUTION - Oversold, wait for bounce confirmation"
  else "NEUTRAL"

/-! ## Technical engine: calculate_position_size
(technical_analysis.py 841-888)

Python's `int()` truncates toward zero, modelled by `pyInt`. -/

/-- Python `int()` applied to a float: truncation toward zero. -/
def pyInt (q : ℚ) : ℤ := if 0 ≤ q then ⌊q⌋ else ⌈q⌉

/-- Result of `calculate_position_size`: either the error dictionary
`{'error': msg, 'shares': 0, 'position_value': 0}` or the full sizing
dictionary. -/
inductive PositionSize where
  | errorResult (error : String) (shares : ℤ) (position_value : ℚ)
  | result (shares : ℤ) (position_value position_percent risk_amount
      risk_percent risk_per_share : ℚ)
  deriving DecidableEq, Repr

/-- `calculate_position_size(portfolio_value, risk_percent, entry_price,
stop_loss_price)` (technical_analysis.py 841-888).  The error dictionary
is returned before any division by `portfolio_value`; in the non-error
branch `position_percent = (position_value / portfolio_value) * 100`
(line 874) divides by `portfolio_value` unguarded, so the Python raises
`ZeroDivisionError` when `portfolio_value = 0`, modelled as
`Except.error`. -/
def calculate_position_size (portfolio_value risk_percent entry_price
    stop_loss_price : ℚ) : Except String PositionSize :=
  let risk_amount := portfolio_value * (risk_percent / 100)
  let risk_per_share := entry_price - stop_loss_price
  if risk_per_share ≤ 0 then
    .ok (.errorResult "Stop loss must be below entry price" 0 0)
  else
    let shares : ℤ := pyInt (risk_amount / risk_per_share)
    let position_value : ℚ := shares * entry_price
    if portfolio_value = 0 then
      .error "ZeroDivisionError: float division by zero"
    else
      let position_percent := (position_value / portfolio_value) * 100
      let actual_risk : ℚ := shares * risk_per_share
      let actual_risk_percent := (actual_risk / portfolio_value) * 100
      .ok (.result shares position_value position_percent actual_risk
        actual_risk_percent risk_per_share)

/-- The `'shares'` field of either `calculate_position_size` result
dictionary. -/
def sharesOf : PositionSize → ℤ
  | .errorResult _ s _ => s
  | .result s _ _ _ _ _ => s

/-- The `'position_value'` field of either `calculate_position_size`
result dictionary. -/
def positionValueOf : PositionSize → ℚ
  | .errorResult _ _ v => v
  | .result _ v _ _ _ _ => v

/-! ## Combined layer: recommendation chain of analyze_stock_comprehensive
(combined_analysis.py 71-84) -/

/-- The overall recommendation label chosen from the fundamental and
technical scores (the if/elif chain at combined_analysis.py 72-83). -/
def recommendation (fund_score tech_score : ℚ) : String :=
  if fund_score ≥ 70 ∧ tech_score ≥ 67 then "🟢 STRONG BUY"
  else if fund_score ≥ 70 ∧ tech_score ≥ 50 then "🟡 BUY WITH CAUTION"
  else if fund_score ≥ 50 ∧ tech_score ≥ 67 then "🟡 WAIT"
  else "🔴 AVOID"

/-! ## Combined layer: _calculate_fundamental_score
(combined_analysis.py 125-200)

The input `fund_result` dictionary is modelled by the metric values the
function actually reads; a missing key is `Option.none`.  Every lookup in
the Python uses `fund_result.get(key, 0)` except `'p/e'`, whose default is
`float('inf')` — with that default both P/E branch conditions
(`pe < 15 and pe > 0`, `pe < 25 and pe > 0`) are false, modelled by the
`none` case scoring 0. -/

/-- The metric values read by `_calculate_fundamental_score`; `none`
models a key absent from the `fund_result` dictionary. -/
structure FundResult where
  roe : Option ℚ := none                 -- 'ROE'
  roce : Option ℚ := none                -- 'ROCE'
  npm : Option ℚ := none                 -- 'NPM'
  earnings_growth_5yr : Option ℚ := none -- 'Earnings Growth 5yr cagr'
  sales_growth_5yr : Option ℚ := none    -- 'Sales Growth 5yr cagr'
  de_market : Option ℚ := none           -- 'd/e_market'
  interest_coverage : Option ℚ := none   -- 'Interest coverage'
  cfo : Option ℚ := none                 -- 'CFO'
  pe : Option ℚ := none                  -- 'p/e' (default float('inf'))
  ey : Option ℚ := none                  -- 'EY'
  ccfo_cpat : Option ℚ := none           -- 'cCFO/cPAT'
  deriving DecidableEq, Repr

/-- Profitability bucket (combined_analysis.py 138-153), max 30 points. -/
def profitabilityScore (f : FundResult) : ℚ :=
  (if f.roe.getD 0 > 15 then 10 else if f.roe.getD 0 > 10 then 5 else 0)
  + (if f.roce.getD 0 > 15 then 10 else if f.roce.getD 0 > 10 then 5 else 0)
  + (if f.npm.getD 0 > 10 then 10 else if f.npm.getD 0 > 5 then 5 else 0)

/-- Growth bucket (combined_analysis.py 155-165), max 20 points. -/
def growthScore (f : FundResult) : ℚ :=
  (if f.earnings_growth_5yr.getD 0 > 15 then 10
   else if f.earnings_growth_5yr.getD 0 > 5 then 5 else 0)
  + (if f.sales_growth_5yr.getD 0 > 15 then 10
     else if f.sales_growth_5yr.getD 0 > 5 then 5 else 0)

/-- Financial-health bucket (combined_analysis.py 167-180), max 25 points. -/
def healthScore (f : FundResult) : ℚ :=
  (if f.de_market.getD 0 < 1/2 then 10
   else if f.de_market.getD 0 < 1 then 5 else 0)
  + (if f.interest_coverage.getD 0 > 3 then 10
     else if f.interest_coverage.getD 0 > 2 then 5 else 0)
  + (if f.cfo.getD 0 > 0 then 5 else 0)

/-- Valuation bucket (combined_analysis.py 182-191), max 15 points.  When
the `'p/e'` key is absent the Python default is `float('inf')`, for which
`pe < 15` and `pe < 25` are both false, so neither branch fires. -/
def valuationScore (f : FundResult) : ℚ :=
  (match f.pe with
   | some p => if p < 15 ∧ p > 0 then 10 else if p < 25 ∧ p > 0 then 5 else 0
   | none => 0)
  + (if f.ey.getD 0 > 7 then 5 else 0)

/-- Cash-flow-quality bucket (combined_analysis.py 193-198), max 10
points. -/
def cashFlowScore (f : FundResult) : ℚ :=
  if f.ccfo_cpat.getD 0 > 1 then 10
  else if f.ccfo_cpat.getD 0 > 4/5 then 5 else 0

/-- The accumulated `max_score` local of `_calculate_fundamental_score`:
30 + 20 + 25 + 15 + 10 (combined_analysis.py 139, 156, 168, 183, 194). -/
def fund_max_score : ℚ := 30 + 20 + 25 + 15 + 10

/-- The accumulated `score` local of `_calculate_fundamental_score`. -/
def fundRawScore (f : FundResult) : ℚ :=
  profitabilityScore f + growthScore f + healthScore f + valuationScore f
    + cashFlowScore f

/-- `_calculate_fundamental_score(fund_result)`: `(score / max_score) * 100
if max_score > 0 else 0` (combined_analysis.py 200). -/
def calculate_fundamental_score (f : FundResult) : ℚ :=
  if fund_max_score > 0 then (fundRawScore f / fund_max_score) * 100 else 0

/-! ## Technical engine: the five indicator sub-scores and the aggregate
(technical_analysis.py analyze_* and complete_technical_analysis 690-712)

Each sub-score is computed by the source from already-derived boolean
conditions (Python `sum([...])` over booleans) or, for support/resistance,
from the two distance percentages; those conditions/distances are the
inputs of the embedded score functions. -/

/-- `analyze_moving_averages` score: `sum([above_50, above_200,
golden_cross])` (technical_analysis.py 113). -/
def maScore (above_50 above_200 golden_cross : Bool) : ℕ :=
  above_50.toNat + above_200.toNat + golden_cross.toNat

/-- `analyze_macd` score: `sum([bullish_crossover, above_zero,
hist_positive])` (technical_analysis.py 210). -/
def macdScore (bullish_crossover above_zero hist_positive : Bool) : ℕ :=
  bullish_crossover.toNat + above_zero.toNat + hist_positive.toNat

/-- `analyze_rsi` score: `sum([rsi < 70, rsi > 50, 40 < rsi < 70])`
(technical_analysis.py 280-285). -/
def rsiScore (rsi : ℚ) : ℕ :=
  (decide (rsi < 70)).toNat + (decide (rsi > 50)).toNat
    + (decide (40 < rsi ∧ rsi < 70)).toNat

/-- `analyze_vwma` score: `sum([above_vwma, vwma_rising,
volume_pattern_bullish])` (technical_analysis.py 382). -/
def vwmaScore (above_vwma vwma_rising volume_pattern_bullish : Bool) : ℕ :=
  above_vwma.toNat + vwma_rising.toNat + volume_pattern_bullish.toNat

/-- `analyze_support_resistance` score (technical_analysis.py 519-525):
+2 at support (distance to support < 2%), else +1 within 5%; +1 when the
distance to resistance exceeds 5%. -/
def srScore (dist_to_support dist_to_resistance : ℚ) : ℕ :=
  (if dist_to_support < 2 then 2 else if dist_to_support < 5 then 1 else 0)
  + (if dist_to_resistance > 5 then 1 else 0)

/-- The already-analyzed per-indicator conditions consumed by
`complete_technical_analysis` when it aggregates the five sub-scores. -/
structure TechConditions where
  above_50 : Bool
  above_200 : Bool
  golden_cross : Bool
  bullish_crossover : Bool
  above_zero : Bool
  hist_positive : Bool
  rsi : ℚ
  above_vwma : Bool
  vwma_rising : Bool
  volume_pattern_bullish : Bool
  dist_to_support : ℚ
  dist_to_resistance : ℚ
  deriving DecidableEq, Repr

/-- The aggregate fields of the `complete_technical_analysis` result
(technical_analysis.py 690-731). -/
structure TechAggregate where
  total_score : ℕ
  max_score : ℕ
  score_percentage : ℚ
  overall_signal : String
  action : String
  deriving DecidableEq, Repr

/-- The `total_score` local of `complete_technical_analysis`
(technical_analysis.py 691-697): the sum of the five sub-scores. -/
def totalTechScore (c : TechConditions) : ℕ :=
  maScore c.above_50 c.above_200 c.golden_cross
  + macdScore c.bullish_crossover c.above_zero c.hist_positive
  + rsiScore c.rsi
  + vwmaScore c.above_vwma c.vwma_rising c.volume_pattern_bullish
  + srScore c.dist_to_support c.dist_to_resistance

/-- The `score_pct` local of `complete_technical_analysis`
(technical_analysis.py 701): `(total_score / max_score) * 100` with
`max_score = 15`. -/
def techScorePct (c : TechConditions) : ℚ :=
  ((totalTechScore c : ℚ) / 15) * 100

/-- The aggregation step of `complete_technical_analysis`
(technical_analysis.py 690-712): total = sum of the five sub-scores,
`score_pct = (total_score / max_score) * 100` with `max_score = 15`, and
the overall signal from the ≥67 / ≥50 if/elif chain. -/
def complete_technical_analysis (c : TechConditions) : TechAggregate :=
  if techScorePct c ≥ 67 then
    ⟨totalTechScore c, 15, techScorePct c, "🟢 STRONG BUY", "Enter position"⟩
  else if techScorePct c ≥ 50 then
    ⟨totalTechScore c, 15, techScorePct c, "🟡 WAIT", "Need more confirmation"⟩
  else
    ⟨totalTechScore c, 15, techScorePct c, "🔴 AVOID", "Poor setup"⟩

/-! ## Fundamentals engine: the ROA/ROE averaging block of
compute_yfinance_metrics (fundamental_analysis.py 404-438)

A statement column is `Option (List ℚ)`: `none` models a line item absent
from the table, in which case `DataFrame.get` substitutes the zero-filled
placeholder `pd.Series([0]*num_years)`.  `Except.error` models a Python
exception escaping the function. -/

/-- `table.get(name, pd.Series([0]*num_years))`: the column's values, or a
zero-filled series of length `num_years` when the line item is absent. -/
def dfGet (column : Option (List ℚ)) (num_years : ℕ) : List ℚ :=
  column.getD (List.replicate num_years 0)

/-- Python slice `series[-k:]`: the last `k` elements (the whole list when
`k` is at least its length). -/
def lastSlice (l : List ℚ) (k : ℕ) : List ℚ :=
  l.drop (l.length - k)

/-- One pass of the `for i in range(years)` loop of fundamental_analysis.py
413-429, for either the ROA or the ROE list: at position `i` the numerator
is `net_income_series.iloc[i]` and the denominator is the average of the
denominator series at `i` and `i-1` (just position `i` when `i = 0`); a
ratio is appended only when that average is nonzero. -/
def yearlyRatios (numer denom : List ℚ) (years : ℕ) : List ℚ :=
  (List.range years).filterMap (fun i =>
    let net_income := numer.getD i 0
    let avg :=
      if 0 < i then (denom.getD i 0 + denom.getD (i - 1) 0) / 2
      else denom.getD i 0
    if avg ≠ 0 then some (net_income / avg * 100) else none)

/-- The four metrics assigned by the block at fundamental_analysis.py
434-438. -/
structure RoaRoeMetrics where
  avg_roa : ℚ       -- '3-5yr Average ROA (%)'
  avg_roe : ℚ       -- '3-5yr Average ROE (%)'
  roe : ℚ           -- 'ROE'  = roe_values[-1]
  roa : ℚ           -- 'ROA'  = roa_values[-1]
  deriving DecidableEq, Repr

/-- The ROA/ROE block of `compute_yfinance_metrics`
(fundamental_analysis.py 404-438): slices the last `min(5, num_years)`
periods of Net Income, Total Assets and Stockholders Equity (each column
zero-filled when absent), loops `min(4, num_years)` times collecting
yearly ROA/ROE ratios with nonzero average denominators, stores their
`get_means` averages, and finally reads `roe_values[-1]` and
`roa_values[-1]` — plain list indexing that raises `IndexError` when the
corresponding list is empty. -/
def roaRoeBlock (netIncomeCol totalAssetsCol equityCol : Option (List ℚ))
    (num_years : ℕ) : Except String RoaRoeMetrics :=
  let net_income_series := lastSlice (dfGet netIncomeCol num_years) (min 5 num_years)
  let total_assets_series := lastSlice (dfGet totalAssetsCol num_years) (min 5 num_years)
  let equity_series := lastSlice (dfGet equityCol num_years) (min 5 num_years)
  let years := min 4 num_years
  let roa_values := yearlyRatios net_income_series total_assets_series years
  let roe_values := yearlyRatios net_income_series equity_series years
  let avg_roa := get_means (roa_values.map some)
  let avg_roe := get_means (roe_values.map some)
  match roe_values.getLast? with
  | none => .error "IndexError: list index out of range"
  | some roe_latest =>
    match roa_values.getLast? with
    | none => .error "IndexError: list index out of range"
    | some roa_latest => .ok ⟨avg_roa, avg_roe, roe_latest, roa_latest⟩

/-! ## Batch orchestrator: analyze_stock and analyze_multiple_stocks
(combined.py 13-79)

A per-ticker result dictionary is an association list in insertion order
with Python-dict update semantics (updating an existing key keeps its
position).  The provider's behavior for a ticker is an oracle value:
`raises` models `stock.history` raising inside `get_stock_data` (which
catches it and returns `(None, None)`), `emptyData` models an empty
dataframe (`get_stock_data` returns a bare `None`), and `ok` carries the
outcomes of the two analyses on the successfully fetched data. -/

/-- A Python dictionary with string keys, in insertion order. -/
abbrev Dict := List (String × String)

/-- `d[k] = v` on a Python dict: replaces the value in place when the key
exists, otherwise appends. -/
def dictInsert (d : Dict) (k v : String) : Dict :=
  if d.any (fun p => p.1 = k) then
    d.map (fun p => if p.1 = k then (k, v) else p)
  else d ++ [(k, v)]

/-- `{**d, **e}`: `d` updated with every entry of `e` in order. -/
def dictUpdate (d e : Dict) : Dict :=
  e.foldl (fun acc p => dictInsert acc p.1 p.2) d

/-- Whether a result dictionary contains an `'error'` field. -/
def hasErrorField (d : Dict) : Bool :=
  d.any (fun p => p.1 = "error")

/-- Oracle for one ticker's provider fetch and analyses. -/
inductive TickerBehavior where
  /-- `stock.history(...)` raises inside `get_stock_data` with this
  message. -/
  | raises (msg : String)
  /-- `stock.history(...)` returns an empty dataframe. -/
  | emptyData
  /-- The fetch succeeds; the two payloads are the outcomes of
  `compute_yfinance_metrics(stock)` and
  `complete_technical_analysis(df)` on the fetched data (`Except.error`
  models the analysis raising). -/
  | ok (fundOutcome techOutcome : Except String Dict)

/-- The value `await t_an.get_stock_data(ticker)` evaluates to
(technical_analysis.py 38-61): the tuple `(df, stock)` on success, the
tuple `(None, None)` when the fetch raised (the exception is caught inside
`get_stock_data`), and a bare `None` when the dataframe was empty. -/
inductive GetStockResult where
  | pairOk
  | pairNone
  | noneSingle

/-- `get_stock_data`'s observable result for a ticker behavior. -/
def get_stock_data : TickerBehavior → GetStockResult
  | .raises _ => .pairNone
  | .emptyData => .noneSingle
  | .ok _ _ => .pairOk

/-- `analyze_stock(ticker, f_an, t_an)` (combined.py 13-40).
`df, stock = await t_an.get_stock_data(ticker)` raises `TypeError` on a
bare `None`, which the surrounding `try` converts into
`{'ticker': ticker, 'error': str(e)}`.  On a `(None, None)` tuple both
analyses raise `AttributeError` on `None`; `asyncio.gather(...,
return_exceptions=True)` hands the exceptions back and the
`isinstance(..., Exception)` checks replace each with `{}`, so the merged
result `{**fun, **tech, 'ticker': ticker}` is just the ticker entry.  On a
successful fetch each analysis outcome that is an exception is likewise
replaced by `{}` before merging. -/
def analyze_stock (ticker : String) (b : TickerBehavior) : Dict :=
  match b with
  | .raises _ =>
      dictInsert (dictUpdate (dictUpdate [] []) []) "ticker" ticker
  | .emptyData =>
      [("ticker", ticker),
       ("error", "cannot unpack non-iterable NoneType object")]
  | .ok fundOutcome techOutcome =>
      let fun_result := match fundOutcome with | .ok d => d | .error _ => []
      let tech_result := match techOutcome with | .ok d => d | .error _ => []
      dictInsert (dictUpdate fun_result tech_result) "ticker" ticker

/-- `results[ticker] = result` on the ticker→result mapping. -/
def resultsInsert (rs : List (String × Dict)) (k : String) (v : Dict) :
    List (String × Dict) :=
  if rs.any (fun p => p.1 = k) then
    rs.map (fun p => if p.1 = k then (k, v) else p)
  else rs ++ [(k, v)]

/-- Fuel-indexed helper for `toBatches`; the fuel is an upper bound on the
list length, so the `0, t :: rest` case is never reached from
`toBatches`. -/
def toBatchesAux (batch_size : ℕ) : ℕ → List String → List (List String)
  | _, [] => []
  | 0, l => [l]
  | fuel + 1, t :: rest =>
      (t :: rest.take (batch_size - 1))
        :: toBatchesAux batch_size fuel (rest.drop (batch_size - 1))

/-- The batches `tickers[i:i+batch_size]` visited by
`for i in range(0, len(tickers), batch_size)`, for `batch_size ≥ 1`: each
step takes the next `batch_size` tickers. -/
def toBatches (batch_size : ℕ) (tickers : List String) :
    List (List String) :=
  toBatchesAux batch_size tickers.length tickers

/-- `analyze_multiple_stocks(tickers, batch_size=10)` (combined.py 43-79):
processes the tickers in sequential batches, runs `analyze_stock` for each
ticker of a batch, and stores each result under its ticker
(`analyze_stock` never lets an exception escape, so the
`isinstance(result, Exception)` branch of the storing loop is never
taken). -/
def analyze_multiple_stocks (behaviors : String → TickerBehavior)
    (tickers : List String) (batch_size : ℕ := 10) : List (String × Dict) :=
  (toBatches batch_size tickers).foldl
    (fun results batch =>
      let batch_results := batch.map (fun t => analyze_stock t (behaviors t))
      (batch.zip batch_results).foldl
        (fun acc p => resultsInsert acc p.1 p.2) results)
    []

/-! ## Concrete scenario inputs used by the theorems below -/

/-- A fundamentals result as in the spec's end-to-end scenario 1: every
metric present and positive, with ROE 18, ROCE 16, NPM 12, d/e_market
0.3, interest coverage 5, P/E 12, EY 8 and cCFO/cPAT 1.2, and (not pinned
by the scenario) growth CAGRs of 1% and a positive CFO. -/
def cleanScenario : FundResult where
  roe := some 18
  roce := some 16
  npm := some 12
  earnings_growth_5yr := some 1
  sales_growth_5yr := some 1
  de_market := some (3 / 10)
  interest_coverage := some 5
  cfo := some 1
  pe := some 12
  ey := some 8
  ccfo_cpat := some (6 / 5)

/-- The `cleanScenario` fundamentals with both growth CAGRs above 15%. -/
def maxedScenario : FundResult where
  roe := some 18
  roce := some 16
  npm := some 12
  earnings_growth_5yr := some 20
  sales_growth_5yr := some 20
  de_market := some (3 / 10)
  interest_coverage := some 5
  cfo := some 1
  pe := some 12
  ey := some 8
  ccfo_cpat := some (6 / 5)

/-- Provider behavior for the spec's end-to-end scenario 3: a batch of
three tickers where the second ticker's provider fetch raises inside
`get_stock_data`; the other two fetches succeed and both analyses return
results. -/
def scenario3Behaviors : String → TickerBehavior := fun t =>
  if t = "T2" then .raises "HTTPError"
  else .ok (.ok [("ROE", "18")]) (.ok [("score_percentage", "80")])

/-! # Theorems -/

/-- C1: the recommendation label of `analyze_stock_comprehensive` is
"strong buy" exactly when fund ≥ 70 and tech ≥ 67; "buy with caution"
exactly when fund ≥ 70 and 50 ≤ tech < 67; "wait" exactly when
50 ≤ fund < 70 and tech ≥ 67; and "avoid" otherwise; in particular
(75,70) ↦ strong buy, (75,55) ↦ buy with caution, (55,70) ↦ wait and
(40,40) ↦ avoid. -/
theorem C1_recommendation_thresholds :
    (∀ f t : ℚ,
      (recommendation f t = "🟢 STRONG BUY" ↔ 70 ≤ f ∧ 67 ≤ t) ∧
      (recommendation f t = "🟡 BUY WITH CAUTION" ↔
        70 ≤ f ∧ 50 ≤ t ∧ t < 67) ∧
      (recommendation f t = "🟡 WAIT" ↔ 50 ≤ f ∧ f < 70 ∧ 67 ≤ t) ∧
      (recommendation f t = "🔴 AVOID" ↔
        ¬(70 ≤ f ∧ 67 ≤ t) ∧ ¬(70 ≤ f ∧ 50 ≤ t ∧ t < 67) ∧
        ¬(50 ≤ f ∧ f < 70 ∧ 67 ≤ t))) ∧
    recommendation 75 70 = "🟢 STRONG BUY" ∧
    recommendation 75 55 = "🟡 BUY WITH CAUTION" ∧
    recommendation 55 70 = "🟡 WAIT" ∧
    recommendation 40 40 = "🔴 AVOID" := by
  refine ⟨fun f t => ?_, by norm_num [recommendation],
    by norm_num [recommendation], by norm_num [recommendation],
    by norm_num [recommendation]⟩
  unfold recommendation
  split_ifs with h1 h2 h3 <;> refine ⟨?_, ?_, ?_, ?_⟩ <;> simp_all

/-- C8: `analyze_rsi` produces the "ideal zone" strong-buy signal exactly
when 45 ≤ RSI ≤ 60 (both bounds inclusive) and the "acceptable zone" buy
signal exactly when 40 ≤ RSI ≤ 70 but RSI is outside [45, 60]; in
particular RSI = 45 gives the ideal-zone signal and RSI = 44.999 the
acceptable-zone signal. -/
theorem C8_rsi_signal_zones :
    (∀ r : ℚ,
      (rsiSignal r = "STRONG BUY - Ideal zone" ↔ 45 ≤ r ∧ r ≤ 60) ∧
      (rsiSignal r = "BUY - Acceptable zone" ↔
        (40 ≤ r ∧ r ≤ 70) ∧ ¬(45 ≤ r ∧ r ≤ 60))) ∧
    rsiSignal 45 = "STRONG BUY - Ideal zone" ∧
    rsiSignal (44999 / 1000) = "BUY - Acceptable zone" := by
  refine ⟨fun r => ?_, by norm_num [rsiSignal], by norm_num [rsiSignal]⟩
  unfold rsiSignal
  split_ifs with h1 h2 h3 h4 <;> refine ⟨?_, ?_⟩ <;> simp_all

/-- C6: `get_means` first drops null/NaN entries; with fewer than `min_n`
valid entries left (in particular with exactly one) it returns the
sentinel -1, and with at least `min_n` valid entries it returns their
arithmetic mean. -/
theorem C6_get_means_sentinel (l : List (Option ℚ)) (min_n : ℕ) :
    ((validEntries l).length < min_n → get_means l min_n = -1) ∧
    (1 ≤ min_n → min_n ≤ (validEntries l).length →
      get_means l min_n = (validEntries l).sum / (validEntries l).length) ∧
    (∀ x : ℚ, validEntries l = [x] → get_means l 2 = -1) := by
  have npMean_cons : ∀ (a : ℚ) (as : List ℚ),
      npMean (a :: as) = some ((a :: as).sum / (a :: as).length) := by
    intro a as; simp [npMean]
  refine ⟨fun h => ?_, fun h1 h2 => ?_, fun x hx => ?_⟩
  · cases hv : validEntries l with
    | nil => simp [get_means, hv, npMean]
    | cons a as =>
        rw [hv] at h
        simp only [get_means, hv, npMean_cons]
        rw [if_neg (by omega)]
  · cases hv : validEntries l with
    | nil => rw [hv] at h2; simp at h2; omega
    | cons a as =>
        rw [hv] at h2
        simp only [get_means, hv, npMean_cons]
        rw [if_pos h2]
  · simp [get_means, hx, npMean]

/-- Witness for C6 at concrete inputs: `[3, NaN, 5]` has two valid
entries, so the mean is returned; `[7, NaN]` has exactly one, so the
sentinel -1 is returned. -/
theorem C6_get_means_sentinel_witness :
    get_means [some 3, none, some 5] 2
        = (validEntries [some 3, none, some 5]).sum
          / (validEntries [some 3, none, some 5]).length ∧
    get_means [some 7, none] 2 = -1 :=
  ⟨(C6_get_means_sentinel [some 3, none, some 5] 2).2.1 (by norm_num)
      (by decide),
   (C6_get_means_sentinel [some 7, none] 2).2.2 7 rfl⟩

/-- C7: `calculate_cagr(start, end, periods)` returns NaN whenever
`start ≤ 0` or `end ≤ 0` or `periods ≤ 0`, and otherwise
`((end/start)^(1/periods) - 1) * 100`. -/
theorem C7_calculate_cagr_spec (s e p : ℝ) :
    ((s ≤ 0 ∨ e ≤ 0 ∨ p ≤ 0) → calculate_cagr s e p = none) ∧
    (0 < s → 0 < e → 0 < p →
      calculate_cagr s e p =
        some (((e / s) ^ ((1 : ℝ) / p) - 1) * 100)) := by
  constructor
  · intro h
    simp [calculate_cagr, h]
  · intro hs he hp
    rw [calculate_cagr, if_neg (by push_neg; exact ⟨hs, he, hp⟩)]

/-- Witness for C7 at concrete inputs: a non-positive start value yields
NaN, and positive inputs yield the CAGR formula. -/
theorem C7_calculate_cagr_spec_witness :
    calculate_cagr (-1) 2 3 = none ∧
    calculate_cagr 1 1 1 =
      some ((((1 : ℝ) / 1) ^ ((1 : ℝ) / 1) - 1) * 100) :=
  ⟨(C7_calculate_cagr_spec (-1) 2 3).1 (Or.inl (by norm_num)),
   (C7_calculate_cagr_spec 1 1 1).2 one_pos one_pos one_pos⟩

/-- C9 counterexample: at portfolio value -150, risk 1%, entry 2, stop 1,
the code computes `int(-1.5) = -1` (truncation toward zero) while the
claimed `floor(-1.5)` is -2, so the claim's floor formula does not hold at
this input. -/
theorem C9_trunc_is_not_floor :
    (calculate_position_size (-150) 1 2 1).map sharesOf = .ok (-1) ∧
    ⌊((-150 : ℚ) * (1 / 100)) / ((2 : ℚ) - 1)⌋ = -2 ∧ (-1 : ℤ) ≠ -2 := by
  refine ⟨?_, by norm_num, by decide⟩
  have h1 : ¬ ((2 : ℚ) - 1 ≤ 0) := by norm_num
  have hq : ((-150 : ℚ)) * (1 / 100) / ((2 : ℚ) - 1) = -(3 / 2) := by
    norm_num
  rw [calculate_position_size, if_neg h1]
  simp only [if_neg (show ¬ ((-150 : ℚ) = 0) by norm_num)]
  show Except.ok (pyInt (((-150 : ℚ)) * (1 / 100) / ((2 : ℚ) - 1)))
      = Except.ok (-1)
  rw [pyInt, hq, if_neg (by norm_num), Int.ceil_neg]
  norm_num

/-- C9 (amended): when stop ≥ entry, `calculate_position_size` returns
the explicit error result with shares 0 and position value 0 — this
branch returns before any division by the portfolio value, so it never
raises; when stop < entry and the portfolio value is 0, the unguarded
division at `position_percent` raises ZeroDivisionError instead of
returning; when stop < entry and the portfolio value is nonzero it
returns `shares = int(risk_amount / (entry - stop))`, Python's truncation
toward zero, which coincides with the claimed floor whenever the risk
amount `portfolio_value * risk_percent / 100` is nonnegative. -/
theorem C9_position_size_spec (pv rp entry stop : ℚ) :
    (entry ≤ stop → calculate_position_size pv rp entry stop =
      .ok (.errorResult "Stop loss must be below entry price" 0 0)) ∧
    (stop < entry → pv = 0 → calculate_position_size pv rp entry stop =
      .error "ZeroDivisionError: float division by zero") ∧
    (stop < entry → pv ≠ 0 →
      (calculate_position_size pv rp entry stop).map sharesOf =
        .ok (pyInt (pv * (rp / 100) / (entry - stop)))) ∧
    (stop < entry → pv ≠ 0 → 0 ≤ pv * (rp / 100) →
      (calculate_position_size pv rp entry stop).map sharesOf =
        .ok ⌊pv * (rp / 100) / (entry - stop)⌋) := by
  refine ⟨fun h => ?_, fun h hpv => ?_, fun h hpv => ?_,
    fun h hpv hr => ?_⟩
  · rw [calculate_position_size, if_pos (by linarith)]
  · rw [calculate_position_size, if_neg (by push_neg; linarith)]
    simp [hpv]
  · rw [calculate_position_size, if_neg (by push_neg; linarith)]
    simp only [if_neg hpv]
    rfl
  · rw [calculate_position_size, if_neg (by push_neg; linarith)]
    simp only [if_neg hpv]
    show Except.ok (pyInt (pv * (rp / 100) / (entry - stop)))
        = Except.ok ⌊pv * (rp / 100) / (entry - stop)⌋
    rw [pyInt, if_pos (div_nonneg hr (by linarith))]

/-- Witness for C9 at concrete inputs: stop 110 ≥ entry 100 gives the
error result; portfolio value 0 with stop 95 < entry 100 raises
ZeroDivisionError; portfolio value 100000 with stop 95 < entry 100 and
nonnegative risk amount gives the truncated (= floored) share count. -/
theorem C9_position_size_spec_witness :
    calculate_position_size 100000 (3 / 2) 100 110
        = .ok (.errorResult "Stop loss must be below entry price" 0 0) ∧
    calculate_position_size 0 (3 / 2) 100 95
        = .error "ZeroDivisionError: float division by zero" ∧
    (calculate_position_size 100000 (3 / 2) 100 95).map sharesOf
        = .ok (pyInt (100000 * ((3 / 2) / 100) / (100 - 95))) ∧
    (calculate_position_size 100000 (3 / 2) 100 95).map sharesOf
        = .ok ⌊(100000 : ℚ) * ((3 / 2) / 100) / (100 - 95)⌋ :=
  ⟨(C9_position_size_spec 100000 (3 / 2) 100 110).1 (by norm_num),
   (C9_position_size_spec 0 (3 / 2) 100 95).2.1 (by norm_num) rfl,
   (C9_position_size_spec 100000 (3 / 2) 100 95).2.2.1 (by norm_num)
     (by norm_num),
   (C9_position_size_spec 100000 (3 / 2) 100 95).2.2.2 (by norm_num)
     (by norm_num) (by norm_num)⟩

/-- Each of `maScore`, `macdScore`, `vwmaScore` is a sum of three boolean
indicators, hence at most 3. -/
theorem boolTripleScore_le_three (a b c : Bool) :
    maScore a b c ≤ 3 ∧ macdScore a b c ≤ 3 ∧ vwmaScore a b c ≤ 3 := by
  cases a <;> cases b <;> cases c <;> decide

/-- The RSI sub-score is a sum of three boolean indicators, hence at
most 3. -/
theorem rsiScore_le_three (r : ℚ) : rsiScore r ≤ 3 := by
  unfold rsiScore
  have hb : ∀ b : Bool, b.toNat ≤ 1 := by decide
  have h1 := hb (decide (r < 70))
  have h2 := hb (decide (r > 50))
  have h3 := hb (decide (40 < r ∧ r < 70))
  omega

/-- The support/resistance sub-score is at most 2 + 1 = 3. -/
theorem srScore_le_three (s t : ℚ) : srScore s t ≤ 3 := by
  unfold srScore
  split_ifs <;> norm_num

/-- C4: the total technical score is the sum of the five indicator
sub-scores, each in [0,3] (sub-scores are naturals, so nonnegative by
type), hence the total is in [0,15]; the percentage is total/15×100; and
the overall signal is the strong-buy label exactly when pct ≥ 67, the
wait label exactly when 50 ≤ pct < 67, and the avoid label exactly when
pct < 50. -/
theorem C4_technical_aggregate (c : TechConditions) :
    (complete_technical_analysis c).total_score
      = maScore c.above_50 c.above_200 c.golden_cross
        + macdScore c.bullish_crossover c.above_zero c.hist_positive
        + rsiScore c.rsi
        + vwmaScore c.above_vwma c.vwma_rising c.volume_pattern_bullish
        + srScore c.dist_to_support c.dist_to_resistance ∧
    maScore c.above_50 c.above_200 c.golden_cross ≤ 3 ∧
    macdScore c.bullish_crossover c.above_zero c.hist_positive ≤ 3 ∧
    rsiScore c.rsi ≤ 3 ∧
    vwmaScore c.above_vwma c.vwma_rising c.volume_pattern_bullish ≤ 3 ∧
    srScore c.dist_to_support c.dist_to_resistance ≤ 3 ∧
    (complete_technical_analysis c).total_score ≤ 15 ∧
    (complete_technical_analysis c).score_percentage
      = ((complete_technical_analysis c).total_score : ℚ) / 15 * 100 ∧
    ((complete_technical_analysis c).overall_signal = "🟢 STRONG BUY" ↔
      67 ≤ (complete_technical_analysis c).score_percentage) ∧
    ((complete_technical_analysis c).overall_signal = "🟡 WAIT" ↔
      50 ≤ (complete_technical_analysis c).score_percentage ∧
        (complete_technical_analysis c).score_percentage < 67) ∧
    ((complete_technical_analysis c).overall_signal = "🔴 AVOID" ↔
      (complete_technical_analysis c).score_percentage < 50) := by
  have hma := (boolTripleScore_le_three c.above_50 c.above_200
    c.golden_cross).1
  have hmacd := (boolTripleScore_le_three c.bullish_crossover c.above_zero
    c.hist_positive).2.1
  have hrsi := rsiScore_le_three c.rsi
  have hvwma := (boolTripleScore_le_three c.above_vwma c.vwma_rising
    c.volume_pattern_bullish).2.2
  have hsr := srScore_le_three c.dist_to_support c.dist_to_resistance
  have htot : totalTechScore c
      = maScore c.above_50 c.above_200 c.golden_cross
        + macdScore c.bullish_crossover c.above_zero c.hist_positive
        + rsiScore c.rsi
        + vwmaScore c.above_vwma c.vwma_rising c.volume_pattern_bullish
        + srScore c.dist_to_support c.dist_to_resistance := rfl
  have h15 : totalTechScore c ≤ 15 := by rw [htot]; omega
  unfold complete_technical_analysis
  split_ifs with h1 h2 <;>
    refine ⟨htot, hma, hmacd, hrsi, hvwma, hsr, h15, rfl, ?_, ?_, ?_⟩ <;>
    simp_all <;> linarith

/-- The profitability bucket contributes between 0 and 30 points. -/
theorem profitabilityScore_bounds (f : FundResult) :
    0 ≤ profitabilityScore f ∧ profitabilityScore f ≤ 30 := by
  unfold profitabilityScore; split_ifs <;> norm_num

/-- The growth bucket contributes between 0 and 20 points. -/
theorem growthScore_bounds (f : FundResult) :
    0 ≤ growthScore f ∧ growthScore f ≤ 20 := by
  unfold growthScore; split_ifs <;> norm_num

/-- The financial-health bucket contributes between 0 and 25 points. -/
theorem healthScore_bounds (f : FundResult) :
    0 ≤ healthScore f ∧ healthScore f ≤ 25 := by
  unfold healthScore; split_ifs <;> norm_num

/-- The valuation bucket contributes between 0 and 15 points. -/
theorem valuationScore_bounds (f : FundResult) :
    0 ≤ valuationScore f ∧ valuationScore f ≤ 15 := by
  unfold valuationScore
  cases f.pe with
  | none => split_ifs <;> norm_num
  | some p => dsimp only; split_ifs <;> norm_num

/-- The cash-flow-quality bucket contributes between 0 and 10 points. -/
theorem cashFlowScore_bounds (f : FundResult) :
    0 ≤ cashFlowScore f ∧ cashFlowScore f ≤ 10 := by
  unfold cashFlowScore; split_ifs <;> norm_num

/-- C10: `_calculate_fundamental_score`'s accumulated maximum is exactly
100 points (30 profitability + 20 growth + 25 health + 15 valuation + 10
cash-flow quality) and the returned score always lies in [0, 100], for
every combination of present, missing or extreme metric values. -/
theorem C10_fundamental_score_bounds :
    fund_max_score = 30 + 20 + 25 + 15 + 10 ∧ fund_max_score = 100 ∧
    ∀ f : FundResult, 0 ≤ calculate_fundamental_score f ∧
      calculate_fundamental_score f ≤ 100 := by
  refine ⟨rfl, by norm_num [fund_max_score], fun f => ?_⟩
  have h1 := profitabilityScore_bounds f
  have h2 := growthScore_bounds f
  have h3 := healthScore_bounds f
  have h4 := valuationScore_bounds f
  have h5 := cashFlowScore_bounds f
  have hraw : calculate_fundamental_score f = fundRawScore f := by
    rw [calculate_fundamental_score, if_pos (by norm_num [fund_max_score])]
    rw [show fund_max_score = 100 from by norm_num [fund_max_score]]
    field_simp
  rw [hraw]
  unfold fundRawScore
  constructor <;> linarith [h1.1, h1.2, h2.1, h2.2, h3.1, h3.2, h4.1, h4.2,
    h5.1, h5.2]

/-- C5 counterexample: a fundamentals result with 5 years of clean,
all-positive data carrying exactly the scenario's pinned values (ROE 18,
ROCE 16, NPM 12, d/e_market 0.3, interest coverage 5, P/E 12, EY 8,
cCFO/cPAT 1.2) but growth CAGRs of only 1% scores 80, not the claimed
100: the 20 growth points are not forced by the scenario's stated
metrics. -/
theorem C5_clean_scenario_not_100 :
    cleanScenario.roe = some 18 ∧ cleanScenario.roce = some 16 ∧
    cleanScenario.npm = some 12 ∧ cleanScenario.de_market = some (3 / 10) ∧
    cleanScenario.interest_coverage = some 5 ∧
    cleanScenario.pe = some 12 ∧ cleanScenario.ey = some 8 ∧
    cleanScenario.ccfo_cpat = some (6 / 5) ∧
    calculate_fundamental_score cleanScenario = 80 ∧ (80 : ℚ) ≠ 100 := by
  refine ⟨rfl, rfl, rfl, rfl, rfl, rfl, rfl, rfl, ?_, by norm_num⟩
  norm_num [calculate_fundamental_score, fundRawScore, profitabilityScore,
    growthScore, healthScore, valuationScore, cashFlowScore,
    fund_max_score, cleanScenario]

/-- C5 (amended): a fundamentals result with the scenario's pinned values
(ROE 18, ROCE 16, NPM 12, d/e_market 0.3, interest coverage 5, P/E 12,
EY 8, cCFO/cPAT 1.2) scores exactly 100/100 — every bucket maxed —
provided additionally both 5-year growth CAGRs exceed 15% and CFO is
positive, which the scenario's stated metrics do not force. -/
theorem C5_scenario_scores_100 (f : FundResult)
    (hroe : f.roe = some 18) (hroce : f.roce = some 16)
    (hnpm : f.npm = some 12) (hde : f.de_market = some (3 / 10))
    (hic : f.interest_coverage = some 5) (hpe : f.pe = some 12)
    (hey : f.ey = some 8) (hccfo : f.ccfo_cpat = some (6 / 5))
    (heg : ∃ v, f.earnings_growth_5yr = some v ∧ v > 15)
    (hsg : ∃ v, f.sales_growth_5yr = some v ∧ v > 15)
    (hcfo : ∃ v, f.cfo = some v ∧ v > 0) :
    calculate_fundamental_score f = 100 := by
  obtain ⟨ve, hve, hve15⟩ := heg
  obtain ⟨vs, hvs, hvs15⟩ := hsg
  obtain ⟨vc, hvc, hvc0⟩ := hcfo
  have g0 : profitabilityScore f = 30 := by
    rw [profitabilityScore, hroe, hroce, hnpm]
    norm_num
  have g1 : growthScore f = 20 := by
    rw [growthScore, hve, hvs]
    simp only [Option.getD_some]
    rw [if_pos (by linarith), if_pos (by linarith)]
    norm_num
  have g2 : healthScore f = 25 := by
    rw [healthScore, hde, hic, hvc]
    simp only [Option.getD_some]
    rw [if_pos (by norm_num), if_pos (by norm_num), if_pos hvc0]
    norm_num
  have g3 : valuationScore f = 15 := by
    rw [valuationScore, hpe, hey]
    dsimp only
    rw [if_pos (by norm_num)]
    simp only [Option.getD_some]
    rw [if_pos (by norm_num)]
    norm_num
  have g4 : cashFlowScore f = 10 := by
    rw [cashFlowScore, hccfo]
    simp only [Option.getD_some]
    rw [if_pos (by norm_num)]
  rw [calculate_fundamental_score, if_pos (by norm_num [fund_max_score])]
  rw [fundRawScore, g0, g1, g2, g3, g4]
  norm_num [fund_max_score]

/-- Witness for C5 (amended) at the concrete `maxedScenario` input. -/
theorem C5_scenario_scores_100_witness :
    calculate_fundamental_score maxedScenario = 100 :=
  C5_scenario_scores_100 maxedScenario rfl rfl rfl rfl rfl rfl rfl rfl
    ⟨20, rfl, by norm_num⟩ ⟨20, rfl, by norm_num⟩ ⟨1, rfl, by norm_num⟩

/-- C2 (code-bug exhibit): with the three statement tables each holding 4
periods, Net Income and Total Assets present and nonzero, but the
Stockholders Equity line item absent (so the lookup degrades to the
zero-filled series), every yearly average equity is 0, no ROE ratio is
collected, and `metrics['ROE'] = roe_values[latest]` at
fundamental_analysis.py line 437 indexes into an empty list — an
IndexError instead of the claimed fallback-valued metrics mapping. -/
theorem C2_missing_equity_raises :
    yearlyRatios (lastSlice (dfGet (some [10, 10, 10, 10]) 4) (min 5 4))
        (lastSlice (dfGet none 4) (min 5 4)) (min 4 4) = [] ∧
    roaRoeBlock (some [10, 10, 10, 10]) (some [100, 100, 100, 100]) none 4
      = .error "IndexError: list index out of range" := by
  constructor
  · norm_num [yearlyRatios, dfGet, lastSlice, List.range_succ]
  · norm_num [roaRoeBlock, dfGet, lastSlice, yearlyRatios, get_means,
      validEntries, npMean, List.range_succ]

/-- C3 counterexample: in a batch of three tickers where ticker #2's
provider fetch raises, the mapping does have three entries, but ticker
#2's entry is just `{'ticker': 'T2'}` with no `error` field: the
exception is swallowed inside `get_stock_data`, which returns
`(None, None)`, and the two analyses' failures on `None` are replaced by
empty dictionaries. -/
theorem C3_fetch_raise_entry_lacks_error_field :
    (analyze_multiple_stocks scenario3Behaviors ["T1", "T2", "T3"]).length
        = 3 ∧
    (analyze_multiple_stocks scenario3Behaviors
        ["T1", "T2", "T3"]).lookup "T2" = some [("ticker", "T2")] ∧
    hasErrorField [("ticker", "T2")] = false := by
  refine ⟨?_, ?_, by decide⟩ <;> decide

/-- Zipping a list with its own map pairs each element with its image. -/
theorem zip_map_self {α β : Type} (g : α → β) :
    ∀ l : List α, l.zip (l.map g) = l.map (fun t => (t, g t))
  | [] => rfl
  | a :: as => by simp [zip_map_self g as]

/-- The batches produced by `toBatchesAux` concatenate back to the input
list whenever the fuel covers its length. -/
theorem toBatchesAux_flatten (bs : ℕ) :
    ∀ (fuel : ℕ) (l : List String), l.length ≤ fuel →
      (toBatchesAux bs fuel l).flatten = l := by
  intro fuel
  induction fuel with
  | zero =>
      intro l hl
      cases l with
      | nil => rfl
      | cons t rest => simp at hl
  | succ fuel ih =>
      intro l hl
      cases l with
      | nil => rfl
      | cons t rest =>
          simp only [toBatchesAux, List.flatten_cons]
          rw [ih (rest.drop (bs - 1)) (by simp at hl ⊢; omega)]
          simp [List.take_append_drop]

/-- The batches of a ticker list concatenate back to the ticker list. -/
theorem toBatches_flatten (bs : ℕ) (l : List String) :
    (toBatches bs l).flatten = l :=
  toBatchesAux_flatten bs l.length l le_rfl

/-- Batch processing stores exactly the per-ticker results, in ticker
order: the batched double loop equals a single fold over the tickers. -/
theorem analyze_multiple_stocks_eq_foldl
    (behaviors : String → TickerBehavior) (tickers : List String)
    (bs : ℕ) :
    analyze_multiple_stocks behaviors tickers bs
      = tickers.foldl
          (fun acc t => resultsInsert acc t (analyze_stock t (behaviors t)))
          [] := by
  unfold analyze_multiple_stocks
  have hfun : (fun (results : List (String × Dict)) (batch : List String) =>
      (batch.zip (batch.map (fun t => analyze_stock t (behaviors t)))).foldl
        (fun acc p => resultsInsert acc p.1 p.2) results)
      = (fun results batch => batch.foldl
          (fun acc t => resultsInsert acc t (analyze_stock t (behaviors t)))
          results) := by
    funext results batch
    rw [zip_map_self, List.foldl_map]
  simp only [hfun]
  rw [← List.foldl_flatten, toBatches_flatten]

/-- Storing under a key absent from the mapping appends a new entry. -/
theorem resultsInsert_of_not_mem (rs : List (String × Dict)) (k : String)
    (v : Dict) (h : ∀ p ∈ rs, p.1 ≠ k) :
    resultsInsert rs k v = rs ++ [(k, v)] := by
  rw [resultsInsert, if_neg]
  simp only [List.any_eq_true, decide_eq_true_eq, not_exists]
  intro p hp
  exact h p hp.1 hp.2

/-- Folding `resultsInsert` over pairwise-distinct fresh tickers appends
one entry per ticker. -/
theorem foldl_resultsInsert_eq_append (g : String → Dict) :
    ∀ (l : List String) (acc : List (String × Dict)), l.Nodup →
      (∀ t ∈ l, ∀ p ∈ acc, p.1 ≠ t) →
      l.foldl (fun acc t => resultsInsert acc t (g t)) acc
        = acc ++ l.map (fun t => (t, g t))
  | [], acc, _, _ => by simp
  | t :: rest, acc, hnd, hdisj => by
      simp only [List.foldl_cons, List.map_cons]
      rw [resultsInsert_of_not_mem acc t (g t)
        (fun p hp => hdisj t (by simp) p hp)]
      rw [foldl_resultsInsert_eq_append g rest (acc ++ [(t, g t)])
        (List.Nodup.of_cons hnd) ?_]
      · simp
      · intro u hu p hp
        rcases List.mem_append.mp hp with hacc | hsing
        · exact hdisj u (by simp [hu]) p hacc
        · have : p = (t, g t) := by simpa using hsing
          subst this
          have : t ∉ rest := (List.nodup_cons.mp hnd).1
          simp only [ne_eq]
          intro he
          exact this (he ▸ hu)

/-- Looking a member up in the mapping built from a ticker list finds its
own result. -/
theorem lookup_map_self (g : String → Dict) :
    ∀ (l : List String) (t : String), t ∈ l →
      (l.map (fun u => (u, g u))).lookup t = some (g t)
  | a :: as, t, h => by
      by_cases ht : t = a
      · subst ht
        simp [List.lookup]
      · have : t ∈ as := by
          rcases List.mem_cons.mp h with h1 | h2
          · exact absurd h1 ht
          · exact h2
        have hba : (t == a) = false := beq_eq_false_iff_ne.mpr ht
        simp only [List.map_cons, List.lookup, hba]
        exact lookup_map_self g as t this

/-- C3 (amended): for pairwise-distinct tickers the batch result has
exactly one entry per requested ticker and is never aborted by a
per-ticker failure; a ticker whose dataframe comes back empty gets an
entry with an `error` field, a ticker whose analyses both ran gets the
merged full result — but a ticker whose provider fetch raises inside
`get_stock_data` gets only `{'ticker': t}`, without an `error` field,
because the fetch exception is swallowed there. -/
theorem C3_batch_isolation (behaviors : String → TickerBehavior)
    (tickers : List String) (bs : ℕ) (hnd : tickers.Nodup) :
    (analyze_multiple_stocks behaviors tickers bs).length
        = tickers.length ∧
    (∀ t ∈ tickers, (analyze_multiple_stocks behaviors tickers bs).lookup t
        = some (analyze_stock t (behaviors t))) ∧
    (∀ t msg, behaviors t = .raises msg →
        analyze_stock t (behaviors t) = [("ticker", t)] ∧
        hasErrorField (analyze_stock t (behaviors t)) = false) ∧
    (∀ t, behaviors t = .emptyData →
        hasErrorField (analyze_stock t (behaviors t)) = true) ∧
    (∀ t fd td, behaviors t = .ok (.ok fd) (.ok td) →
        analyze_stock t (behaviors t)
          = dictInsert (dictUpdate fd td) "ticker" t) := by
  have hmap : analyze_multiple_stocks behaviors tickers bs
      = tickers.map (fun t => (t, analyze_stock t (behaviors t))) := by
    rw [analyze_multiple_stocks_eq_foldl]
    rw [foldl_resultsInsert_eq_append
      (fun t => analyze_stock t (behaviors t)) tickers [] hnd (by simp)]
    simp
  refine ⟨by rw [hmap]; simp, fun t ht => ?_, fun t msg hb => ?_,
    fun t hb => ?_, fun t fd td hb => ?_⟩
  · rw [hmap]
    exact lookup_map_self _ tickers t ht
  · rw [hb]
    exact ⟨rfl, rfl⟩
  · rw [hb]
    rfl
  · rw [hb]
    rfl

/-- Witness for C3 (amended) on the scenario-3 batch: three distinct
tickers, ticker #2's fetch raising. -/
theorem C3_batch_isolation_witness :
    (analyze_multiple_stocks scenario3Behaviors ["T1", "T2", "T3"]).length
        = (["T1", "T2", "T3"] : List String).length ∧
    (analyze_multiple_stocks scenario3Behaviors
        ["T1", "T2", "T3"]).lookup "T2"
        = some (analyze_stock "T2" (scenario3Behaviors "T2")) ∧
    analyze_stock "T2" (scenario3Behaviors "T2") = [("ticker", "T2")] ∧
    hasErrorField (analyze_stock "T2" (scenario3Behaviors "T2")) = false :=
  ⟨(C3_batch_isolation scenario3Behaviors ["T1", "T2", "T3"] 10
      (by decide)).1,
   (C3_batch_isolation scenario3Behaviors ["T1", "T2", "T3"] 10
      (by decide)).2.1 "T2" (by decide),
   (C3_batch_isolation scenario3Behaviors ["T1", "T2", "T3"] 10
      (by decide)).2.2.1 "T2" "HTTPError" rfl⟩
